import Mathlib

/-!
Verification of the teacher-dashboard analytics pipeline of this repository
(`migration_v3` SQL views: `v_teacher_roster`, `v_support_status`,
`v_teacher_kpis`, `v_growth_last_two`, `v_priority_students`).

The relational rows are embedded as Lean structures; nullable SQL columns
become `Option`; `NUMERIC`/`DOUBLE PRECISION` scores become `ℚ`; `DATE` and
`TIMESTAMPTZ` become `Int` (days / an insertion-ordered timestamp).  SQL
three-valued comparisons (`x < y` is not-true when either side is NULL) are
embedded as `Bool`-valued helpers that return `false` on NULL.
-/

namespace J9

/-- An `assessments` row, restricted to the columns the analytics views read.
`created_at` is the insertion-ordered timestamp used as the tie-break in
`ORDER BY ... a.created_at DESC`. -/
structure Assessment where
  enrollment_id : Option Nat
  subject_area : String
  assessment_type : String
  assessment_period : String
  school_year : String
  score_normalized : Option ℚ
  effective_date : Option Int
  created_at : Int
deriving DecidableEq, Repr

/-- An `interventions` row, restricted to the columns `v_teacher_roster` reads. -/
structure Intervention where
  intervention_id : Nat
  enrollment_id : Option Nat
  status : Option String
deriving DecidableEq, Repr

/-- A `benchmark_thresholds` row. -/
structure Threshold where
  subject_area : String
  assessment_type : String
  grade_level : String
  assessment_period : String
  school_year : String
  support_threshold : Option ℚ
  benchmark_threshold : Option ℚ
deriving DecidableEq, Repr

/-- A `student_enrollments` row (columns used by the views). -/
structure Enrollment where
  enrollment_id : Nat
  student_uuid : Nat
  school_year : String
  grade_level : String
  class_name : String
  teacher_name : String
deriving DecidableEq, Repr

/-- A `students_core` row. -/
structure StudentCore where
  student_uuid : Nat
  display_name : String
deriving DecidableEq, Repr

/-- SQL `d1 < d2` on nullable dates as used by `effective_date DESC NULLS LAST`:
a NULL date sorts after every real date in descending order, i.e. it is the
minimum for the "latest first" comparison. -/
def dateLtB : Option Int → Option Int → Bool
  | none, none => false
  | none, some _ => true
  | some _, none => false
  | some a, some b => decide (a < b)

/-- Strict "sorts strictly later in `ORDER BY effective_date DESC NULLS LAST,
created_at DESC`" comparison between two assessment rows. -/
def keyLtB (a b : Assessment) : Bool :=
  dateLtB a.effective_date b.effective_date ||
    (a.effective_date == b.effective_date && decide (a.created_at < b.created_at))

/-- Two assessment rows tie in the sort key of the `latest` CTE. -/
def keyEq (a b : Assessment) : Prop :=
  a.effective_date = b.effective_date ∧ a.created_at = b.created_at

/-- `DISTINCT ON (enrollment_id, subject_area) ... ORDER BY effective_date DESC
NULLS LAST, created_at DESC` applied to one (enrollment, subject) group: pick
the row that sorts first, i.e. a maximal row under `keyLtB`. -/
def latestSelect : List Assessment → Option Assessment
  | [] => none
  | x :: xs => some (xs.foldl (fun acc y => if keyLtB acc y then y else acc) x)

/-- The `latest_score` the roster reports for a group of assessment rows:
the selected row's `score_normalized` (NULL propagates, never rewritten to 0). -/
def latestScoreOf (rows : List Assessment) : Option ℚ :=
  (latestSelect rows).bind (fun a => a.score_normalized)

/-- SQL `score < threshold` with three-valued logic: not-true when either
side is NULL (this is exactly the guard
`t.x IS NOT NULL AND r.latest_score < t.x` of `v_support_status`). -/
def sqlLt : Option ℚ → Option ℚ → Bool
  | some s, some t => decide (s < t)
  | _, _ => false

/-- `support_status` CASE of `v_support_status`. -/
def support_status (score sup bench : Option ℚ) : String :=
  if score.isNone then "Unknown"
  else if sqlLt score sup then "Needs Support"
  else if sqlLt score bench then "Monitor"
  else "On Track"

/-- `tier` CASE of `v_support_status`. -/
def tier (score sup bench : Option ℚ) : String :=
  if score.isNone then "Unknown"
  else if sqlLt score sup then "Intensive"
  else if sqlLt score bench then "Strategic"
  else "Core"

/-- Both derived columns of `v_support_status` at once. -/
def statusTier (score sup bench : Option ℚ) : String × String :=
  (support_status score sup bench, tier score sup bench)

/-! ### Order facts about the selector's sort key -/

theorem dateLtB_irrefl (d : Option Int) : dateLtB d d = false := by
  cases d <;> simp [dateLtB]

theorem keyLtB_irrefl (a : Assessment) : keyLtB a a = false := by
  simp [keyLtB, dateLtB_irrefl]

theorem dateLtB_trans {a b c : Option Int} (h1 : dateLtB a b = true)
    (h2 : dateLtB b c = true) : dateLtB a c = true := by
  cases a <;> cases b <;> cases c <;> simp_all [dateLtB] <;> omega

theorem keyLtB_trans {a b c : Assessment} (h1 : keyLtB a b = true)
    (h2 : keyLtB b c = true) : keyLtB a c = true := by
  simp only [keyLtB, Bool.or_eq_true, Bool.and_eq_true, beq_iff_eq,
    decide_eq_true_eq] at h1 h2 ⊢
  rcases h1 with h1 | ⟨he1, hc1⟩
  · rcases h2 with h2 | ⟨he2, hc2⟩
    · exact Or.inl (dateLtB_trans h1 h2)
    · rw [← he2]; exact Or.inl h1
  · rcases h2 with h2 | ⟨he2, hc2⟩
    · rw [he1]; exact Or.inl h2
    · exact Or.inr ⟨he1.trans he2, hc1.trans hc2⟩

theorem keyLtB_total (a b : Assessment) :
    keyLtB a b = true ∨ keyLtB b a = true ∨ keyEq a b := by
  simp only [keyLtB, keyEq, Bool.or_eq_true, Bool.and_eq_true, beq_iff_eq,
    decide_eq_true_eq]
  rcases ha : a.effective_date with _ | da <;> rcases hb : b.effective_date with _ | db
  · simp [dateLtB]; omega
  · simp [dateLtB]
  · simp [dateLtB]
  · simp only [dateLtB, decide_eq_true_eq, Option.some.injEq]
    rcases lt_trichotomy da db with h | h | h
    · exact Or.inl (Or.inl h)
    · subst h
      rcases lt_trichotomy a.created_at b.created_at with h | h | h
      · exact Or.inl (Or.inr ⟨rfl, h⟩)
      · exact Or.inr (Or.inr ⟨rfl, h⟩)
      · exact Or.inr (Or.inl (Or.inr ⟨rfl, h⟩))
    · exact Or.inr (Or.inl (Or.inl h))

theorem keyLtB_congr_right {a b : Assessment} (h : keyEq a b) (c : Assessment) :
    keyLtB c a = keyLtB c b := by
  obtain ⟨h1, h2⟩ := h
  simp [keyLtB, h1, h2]

/-- The fold underlying `latestSelect` returns an element of the group. -/
theorem foldlPick_mem (x : Assessment) (xs : List Assessment) :
    xs.foldl (fun acc y => if keyLtB acc y then y else acc) x ∈ x :: xs := by
  induction xs generalizing x with
  | nil => simp
  | cons y ys ih =>
    simp only [List.foldl_cons]
    by_cases hk : keyLtB x y
    · simp only [hk, if_pos]
      have := ih y
      simp only [List.mem_cons] at this ⊢
      tauto
    · simp only [hk, Bool.false_eq_true, if_neg, not_false_iff]
      have := ih x
      simp only [List.mem_cons] at this ⊢
      tauto

/-- The fold underlying `latestSelect` returns a maximal element: no row of the
group sorts strictly later than it. -/
theorem foldlPick_max (x : Assessment) (xs : List Assessment) :
    ∀ b ∈ x :: xs, keyLtB (xs.foldl (fun acc y => if keyLtB acc y then y else acc) x) b = false := by
  induction xs generalizing x with
  | nil =>
    intro b hb
    simp only [List.mem_singleton] at hb
    rw [hb]
    simpa using keyLtB_irrefl x
  | cons y ys ih =>
    intro b hb
    simp only [List.foldl_cons]
    simp only [List.mem_cons] at hb
    by_cases hk : keyLtB x y
    · simp only [hk, if_pos]
      rcases hb with hb | hb | hb
      · rw [hb]
        by_cases hr : keyLtB (ys.foldl (fun acc y => if keyLtB acc y then y else acc) y) x
        · exfalso
          have hmaxy := ih y y (List.mem_cons_self y ys)
          have : keyLtB (ys.foldl (fun acc y => if keyLtB acc y then y else acc) y) y = true :=
            keyLtB_trans hr hk
          rw [hmaxy] at this
          exact Bool.false_ne_true this
        · simp only [Bool.not_eq_true] at hr
          exact hr
      · rw [hb]
        exact ih y y (List.mem_cons_self y ys)
      · exact ih y b (List.mem_cons_of_mem y hb)
    · simp only [hk, Bool.false_eq_true, if_neg, not_false_iff]
      rcases hb with hb | hb | hb
      · rw [hb]
        exact ih x x (List.mem_cons_self x ys)
      · rw [hb]
        by_cases hr : keyLtB (ys.foldl (fun acc y => if keyLtB acc y then y else acc) x) y
        · exfalso
          have hmaxx := ih x x (List.mem_cons_self x ys)
          rcases keyLtB_total x y with h1 | h1 | h1
          · exact hk h1
          · have : keyLtB (ys.foldl (fun acc y => if keyLtB acc y then y else acc) x) x = true :=
              keyLtB_trans hr h1
            rw [hmaxx] at this
            exact Bool.false_ne_true this
          · have heq := keyLtB_congr_right (a := y) (b := x) ⟨h1.1.symm, h1.2.symm⟩
              (ys.foldl (fun acc y => if keyLtB acc y then y else acc) x)
            rw [heq, hmaxx] at hr
            exact Bool.false_ne_true hr
        · simp only [Bool.not_eq_true] at hr
          exact hr
      · exact ih x b (List.mem_cons_of_mem x hb)

/-- `latestSelect` on a nonempty group returns exactly one row; it is a member
of the group and maximal in the (`effective_date` DESC NULLS LAST,
`created_at` DESC) sort key. -/
theorem latestSelect_spec (rows : List Assessment) (hne : rows ≠ []) :
    ∃ r, latestSelect rows = some r ∧ r ∈ rows ∧ ∀ b ∈ rows, keyLtB r b = false := by
  match rows with
  | [] => exact absurd rfl hne
  | x :: xs =>
    refine ⟨xs.foldl (fun acc y => if keyLtB acc y then y else acc) x, rfl, ?_, ?_⟩
    · exact foldlPick_mem x xs
    · exact foldlPick_max x xs

/-! ### Growth / trend engine (`v_growth_last_two`) -/

/-- SQL `x >= y` on nullable numerics (not-true when either side is NULL). -/
def sqlGe : Option ℚ → Option ℚ → Bool
  | some a, some b => decide (a ≥ b)
  | _, _ => false

/-- SQL `x <= y` on nullable numerics (not-true when either side is NULL). -/
def sqlLe : Option ℚ → Option ℚ → Bool
  | some a, some b => decide (a ≤ b)
  | _, _ => false

/-- SQL `x - y` on nullable numerics (NULL when either side is NULL). -/
def sqlSub : Option ℚ → Option ℚ → Option ℚ
  | some a, some b => some (a - b)
  | _, _ => none

/-- The `trend` CASE of `v_growth_last_two` applied to the pair's
`latest_score` and `prior_score`. -/
def trendOf (latest prior : Option ℚ) : String :=
  if prior.isNone then "No Data"
  else if sqlGe (sqlSub latest prior) (some 2) then "Improving"
  else if sqlLe (sqlSub latest prior) (some (-2)) then "Declining"
  else "Stable"

/-- The `ranked`/`pairs` CTEs of `v_growth_last_two` for one
(enrollment, subject, year) group of non-null-scored rows: `rn = 1` is the
sort-maximal row, `rn = 2` the maximal row of the rest; `none` when the group
is empty (the view emits no row then). -/
def growthPairOf (rows : List Assessment) : Option (Option ℚ × Option ℚ) :=
  match latestSelect rows with
  | none => none
  | some a1 => some (a1.score_normalized,
      (latestSelect (rows.erase a1)).bind (fun a2 => a2.score_normalized))

/-! ### Intervention flag (`active_intervention` CTE of `v_teacher_roster`) -/

/-- SQL `TRIM(s)` (default: strip spaces from both ends). -/
def sqlTrim (s : String) : String :=
  String.mk (((s.toList.dropWhile (· = ' ')).reverse.dropWhile (· = ' ')).reverse)

/-- SQL `LOWER(s)`: lowercase character by character. -/
def sqlLower (s : String) : String :=
  String.mk (s.toList.map Char.toLower)

/-- The status filter of the `active_intervention` CTE:
`status IS NULL OR LOWER(TRIM(status)) IN ('active', 'in progress', 'ongoing')`. -/
def statusActiveB : Option String → Bool
  | none => true
  | some st =>
    let t := sqlLower (sqlTrim st)
    t = "active" || t = "in progress" || t = "ongoing"

/-- `has_active_intervention` for an enrollment after the
`COALESCE(ai.has_active_intervention, FALSE)` of `v_teacher_roster`: true iff
some intervention row of that enrollment passes the status filter. -/
def has_active_intervention (eid : Nat) (ivs : List Intervention) : Bool :=
  ivs.any (fun i => i.enrollment_id == some eid && statusActiveB i.status)

/-! ### Priority scorer (`v_priority_students`) -/

/-- SQL `d > k` for the nullable `days_since_assessment` column
(not-true when NULL). -/
def sqlGtI : Option Int → Int → Bool
  | none, _ => false
  | some d, k => decide (k < d)

/-- SQL `trend = 'X'` for the nullable joined `g.trend` column
(not-true when the growth row is absent). -/
def sqlEqS : Option String → String → Bool
  | none, _ => false
  | some s, t => s = t

/-- The `priority_score` expression of `v_priority_students`. -/
def priority_score (tierV : String) (trend : Option String)
    (days : Option Int) (hasActive : Bool) : Int :=
  (if tierV = "Intensive" then 5 else if tierV = "Strategic" then 3 else 0) +
  (if sqlEqS trend "Declining" then 3 else if sqlEqS trend "Stable" then 1 else 0) +
  (if sqlGtI days 90 then 2 else if sqlGtI days 60 then 1 else 0) +
  (if hasActive = false ∧ (tierV = "Intensive" ∨ tierV = "Strategic") then 2 else 0)

/-- The four CASE arms inside the `CONCAT_WS` of the `reasons` column, in the
order they appear in the view (NULL arms contribute nothing). -/
def reasonArms (tierV : String) (trend : Option String)
    (hasActive : Bool) (days : Option Int) : List (Option String) :=
  [ if tierV = "Intensive" then some "Intensive tier"
      else if tierV = "Strategic" then some "Strategic tier" else none,
    if sqlEqS trend "Declining" then some "Declining growth trend" else none,
    if hasActive = false ∧ (tierV = "Intensive" ∨ tierV = "Strategic")
      then some "No active intervention" else none,
    if sqlGtI days 90 then some "Overdue assessment (>90d)" else none ]

/-- SQL `CONCAT_WS(sep, ...)`: join the non-NULL arguments with `sep`. -/
def concat_ws (sep : String) (parts : List (Option String)) : String :=
  String.intercalate sep (parts.filterMap id)

/-- SQL `TRIM(BOTH cs FROM s)`: strip any of the characters `cs` from both
ends of `s`. -/
def trimBoth (cs : List Char) (s : String) : String :=
  String.mk (((s.toList.dropWhile (cs.contains ·)).reverse.dropWhile (cs.contains ·)).reverse)

/-- The `reasons` column of `v_priority_students`:
`TRIM(BOTH ' |' FROM CONCAT_WS(' | ', ...))`. -/
def reasons (tierV : String) (trend : Option String)
    (hasActive : Bool) (days : Option Int) : String :=
  trimBoth [' ', '|'] (concat_ws " | " (reasonArms tierV trend hasActive days))

/-! ### KPI engine (`v_teacher_kpis`) -/

/-- One `v_teacher_roster` output row (derived columns). -/
structure RosterRow where
  enrollment_id : Nat
  student_uuid : Nat
  display_name : String
  school_year : String
  grade_level : String
  class_name : String
  teacher_name : String
  subject_area : Option String
  latest_score : Option ℚ
  latest_date : Option Int
  latest_period : Option String
  latest_type : Option String
  days_since_assessment : Option Int
  has_active_intervention : Bool
deriving DecidableEq, Repr

/-- `COUNT(*)` of a KPI group. -/
def total_students (rows : List RosterRow) : Nat := rows.length

/-- `COUNT(*) FILTER (WHERE latest_score IS NOT NULL)` of a KPI group. -/
def assessed_students (rows : List RosterRow) : Nat :=
  (rows.filter (fun r => r.latest_score.isSome)).length

/-- The non-NULL `days_since_assessment` values of a KPI group (the rows the
`FILTER (WHERE days_since_assessment IS NOT NULL)` keeps). -/
def daysValues (rows : List RosterRow) : List Int :=
  rows.filterMap (fun r => r.days_since_assessment)

/-- Ascending insertion into a sorted list (for the ordered-set aggregate). -/
def insertAsc (x : Int) : List Int → List Int
  | [] => [x]
  | y :: ys => if x ≤ y then x :: y :: ys else y :: insertAsc x ys

/-- Ascending insertion sort, the `WITHIN GROUP (ORDER BY ...)` ordering. -/
def sortAsc (l : List Int) : List Int := l.foldr insertAsc []

/-- `PERCENTILE_CONT(0.5) WITHIN GROUP (ORDER BY v)` over a list of values:
NULL on the empty set, the middle element for odd length, the mean of the two
middle elements for even length. -/
def percentileCont05 (l : List Int) : Option ℚ :=
  let s := sortAsc l
  match s with
  | [] => none
  | _ =>
    let n := s.length
    if n % 2 = 1 then some ((s.getD (n / 2) 0 : Int) : ℚ)
    else some ((((s.getD (n / 2 - 1) 0 + s.getD (n / 2) 0 : Int) : ℚ)) / 2)

/-- `median_days_since` of a KPI group: the filtered ordered-set aggregate. -/
def median_days_since (rows : List RosterRow) : Option ℚ :=
  percentileCont05 (daysValues rows)

/-! ### The view pipeline (`v_teacher_roster` → `v_support_status` →
`v_priority_students`) over full relation contents -/

/-- The subjects for which the `latest` CTE has a row for this enrollment. -/
def subjectsOf (eid : Nat) (asmts : List Assessment) : List String :=
  ((asmts.filter (fun a => a.enrollment_id == some eid)).map
    (fun a => a.subject_area)).dedup

/-- The `latest` CTE row for one (enrollment, subject) group. -/
def latestRowFor (eid : Nat) (subj : String) (asmts : List Assessment) :
    Option Assessment :=
  latestSelect (asmts.filter
    (fun a => a.enrollment_id == some eid && a.subject_area == subj))

/-- A roster row built from a matched `latest` CTE row
(`days_since_assessment = (CURRENT_DATE - latest_date)::INT`). -/
def mkRosterRow (today : Int) (s : StudentCore) (e : Enrollment)
    (ai : Bool) (a : Assessment) : RosterRow :=
  { enrollment_id := e.enrollment_id
    student_uuid := e.student_uuid
    display_name := s.display_name
    school_year := e.school_year
    grade_level := e.grade_level
    class_name := e.class_name
    teacher_name := e.teacher_name
    subject_area := some a.subject_area
    latest_score := a.score_normalized
    latest_date := a.effective_date
    latest_period := some a.assessment_period
    latest_type := some a.assessment_type
    days_since_assessment := a.effective_date.map (fun d => today - d)
    has_active_intervention := ai }

/-- The NULL-extended roster row the `LEFT JOIN latest` produces when no
`latest` row matches the enrollment and its school year. -/
def nullRosterRow (s : StudentCore) (e : Enrollment) (ai : Bool) : RosterRow :=
  { enrollment_id := e.enrollment_id
    student_uuid := e.student_uuid
    display_name := s.display_name
    school_year := e.school_year
    grade_level := e.grade_level
    class_name := e.class_name
    teacher_name := e.teacher_name
    subject_area := none
    latest_score := none
    latest_date := none
    latest_period := none
    latest_type := none
    days_since_assessment := none
    has_active_intervention := ai }

/-- The `v_teacher_roster` rows contributed by one enrollment joined with one
`students_core` row: one row per matching `latest` CTE row (the join also
requires `l.school_year = e.school_year`), or a single NULL-extended row when
none matches. -/
def rosterRowsFor (today : Int) (asmts : List Assessment)
    (ivs : List Intervention) (s : StudentCore) (e : Enrollment) :
    List RosterRow :=
  let ai := has_active_intervention e.enrollment_id ivs
  let ls := (subjectsOf e.enrollment_id asmts).filterMap (fun subj =>
    match latestRowFor e.enrollment_id subj asmts with
    | some a => if a.school_year = e.school_year
        then some (mkRosterRow today s e ai a) else none
    | none => none)
  if ls.isEmpty then [nullRosterRow s e ai] else ls

/-- `v_teacher_roster`: enrollments inner-joined with `students_core`,
left-joined with the `latest` and `active_intervention` CTEs. -/
def v_teacher_roster (today : Int) (enrs : List Enrollment)
    (cores : List StudentCore) (asmts : List Assessment)
    (ivs : List Intervention) : List RosterRow :=
  enrs.flatMap (fun e =>
    (cores.filter (fun s => s.student_uuid == e.student_uuid)).flatMap
      (fun s => rosterRowsFor today asmts ivs s e))

/-- One `v_support_status` output row. -/
structure SupportRow where
  row : RosterRow
  support_threshold : Option ℚ
  benchmark_threshold : Option ℚ
  support_status : String
  tier : String
deriving DecidableEq, Repr

/-- Build a `v_support_status` row from a roster row and the (possibly
NULL-extended) joined threshold columns. -/
def mkSupportRow (r : RosterRow) (sup bench : Option ℚ) : SupportRow :=
  { row := r
    support_threshold := sup
    benchmark_threshold := bench
    support_status := support_status r.latest_score sup bench
    tier := tier r.latest_score sup bench }

/-- The five-key equality join condition of `v_support_status` (an equality
with a NULL roster column never matches). -/
def thresholdMatch (r : RosterRow) (t : Threshold) : Bool :=
  r.subject_area == some t.subject_area &&
  r.latest_type == some t.assessment_type &&
  r.grade_level == t.grade_level &&
  r.latest_period == some t.assessment_period &&
  r.school_year == t.school_year

/-- The `v_support_status` rows for one roster row: `LEFT JOIN
benchmark_thresholds` — one row per matching threshold, or one row with
NULL thresholds when none matches. -/
def supportRowsFor (r : RosterRow) (ts : List Threshold) : List SupportRow :=
  let ms := ts.filter (thresholdMatch r)
  if ms.isEmpty then [mkSupportRow r none none]
  else ms.map (fun t => mkSupportRow r t.support_threshold t.benchmark_threshold)

/-- `v_support_status` over full relation contents. -/
def v_support_status (today : Int) (enrs : List Enrollment)
    (cores : List StudentCore) (asmts : List Assessment)
    (ivs : List Intervention) (ts : List Threshold) : List SupportRow :=
  (v_teacher_roster today enrs cores asmts ivs).flatMap
    (fun r => supportRowsFor r ts)

/-- The `v_growth_last_two` group for (enrollment, subject, year): the
non-null-scored assessment rows of that key. -/
def growthGroup (eid : Nat) (subj : String) (yr : String)
    (asmts : List Assessment) : List Assessment :=
  asmts.filter (fun a => a.enrollment_id == some eid && a.subject_area == subj &&
    a.school_year == yr && a.score_normalized.isSome)

/-- The `g.trend` column joined into `v_priority_students` for a support row:
NULL when the roster subject is NULL or `v_growth_last_two` has no row for the
(enrollment, subject, year) key. -/
def trendJoin (ss : SupportRow) (asmts : List Assessment) : Option String :=
  match ss.row.subject_area with
  | none => none
  | some subj =>
    (growthPairOf (growthGroup ss.row.enrollment_id subj ss.row.school_year asmts)).map
      (fun p => trendOf p.1 p.2)

/-- One `v_priority_students` output row (derived columns). -/
structure PriorityRow where
  base : SupportRow
  trend : Option String
  priority_score : Int
  reasons : String
deriving DecidableEq, Repr

/-- Build a `v_priority_students` row from a support row and the assessments
(for the growth left-join). -/
def priorityRowFor (ss : SupportRow) (asmts : List Assessment) : PriorityRow :=
  let tr := trendJoin ss asmts
  { base := ss
    trend := tr
    priority_score := priority_score ss.tier tr
      ss.row.days_since_assessment ss.row.has_active_intervention
    reasons := reasons ss.tier tr
      ss.row.has_active_intervention ss.row.days_since_assessment }

/-- `v_priority_students` over full relation contents. -/
def v_priority_students (today : Int) (enrs : List Enrollment)
    (cores : List StudentCore) (asmts : List Assessment)
    (ivs : List Intervention) (ts : List Threshold) : List PriorityRow :=
  (v_support_status today enrs cores asmts ivs ts).map
    (fun ss => priorityRowFor ss asmts)

/-! ### Claim-side renderings (definitions that follow the spec's words, for
comparison against the view definitions above) -/

/-- Spec wording of C5: the tier contribution of the scoring table. -/
def specTierPoints (t : String) : Int :=
  (if t = "Intensive" then 5 else 0) + (if t = "Strategic" then 3 else 0)

/-- Spec wording of C5: the trend contribution of the scoring table. -/
def specTrendPoints (tr : Option String) : Int :=
  (if tr = some "Declining" then 3 else 0) + (if tr = some "Stable" then 1 else 0)

/-- Spec wording of C5: the recency contribution — +2 if more than 90 days,
+1 if more than 60 but not more than 90 days, 0 otherwise or when unknown. -/
def specDaysPoints : Option Int → Int
  | none => 0
  | some d => (if 90 < d then 2 else 0) + (if 60 < d ∧ ¬ 90 < d then 1 else 0)

/-- Spec wording of C5: the intervention-gap contribution. -/
def specInterventionPoints (hasActive : Bool) (t : String) : Int :=
  if hasActive = false ∧ (t = "Intensive" ∨ t = "Strategic") then 2 else 0

/-- Spec wording of C7: the list holding exactly the reason strings of the
conditions that fired, in the fixed display order. -/
def firedReasons (tierV : String) (trend : Option String)
    (hasActive : Bool) (days : Option Int) : List String :=
  (if tierV = "Intensive" then ["Intensive tier"]
    else if tierV = "Strategic" then ["Strategic tier"] else []) ++
  (if sqlEqS trend "Declining" then ["Declining growth trend"] else []) ++
  (if hasActive = false ∧ (tierV = "Intensive" ∨ tierV = "Strategic")
    then ["No active intervention"] else []) ++
  (if sqlGtI days 90 then ["Overdue assessment (>90d)"] else [])

/-- Whether `pat` is a prefix of `s` (character lists). -/
def startsB : List Char → List Char → Bool
  | [], _ => true
  | _ :: _, [] => false
  | a :: as, b :: bs => a == b && startsB as bs

/-- Whether `pat` occurs as a contiguous substring of `s` (character lists). -/
def substrB (pat : List Char) : List Char → Bool
  | [] => pat.isEmpty
  | c :: rest => startsB pat (c :: rest) || substrB pat rest

/-- Spec wording of C3: an intervention status is "active-like" when it
contains "active", "in progress" or "ongoing" as a case-insensitive
substring (a NULL status contains nothing). -/
def specStatusActive : Option String → Bool
  | none => false
  | some st =>
    substrB "active".toList (sqlLower st).toList ||
    substrB "in progress".toList (sqlLower st).toList ||
    substrB "ongoing".toList (sqlLower st).toList

/-- Spec wording of C8: the ordinal tier ranking Intensive < Strategic < Core. -/
def tierRank (t : String) : Nat :=
  if t = "Intensive" then 0 else if t = "Strategic" then 1
  else if t = "Core" then 2 else 3

/-! ### Concrete rows used as test inputs by witnesses and counterexamples -/

/-- A later-dated assessment whose normalized score is NULL. -/
def cexNullLatest : Assessment :=
  { enrollment_id := some 1, subject_area := "Reading", assessment_type := "MAP"
    assessment_period := "Winter", school_year := "2024-25"
    score_normalized := none, effective_date := some 10, created_at := 1 }

/-- An earlier-dated assessment with a non-null normalized score. -/
def cexScoredPrior : Assessment :=
  { enrollment_id := some 1, subject_area := "Reading", assessment_type := "MAP"
    assessment_period := "Fall", school_year := "2024-25"
    score_normalized := some 50, effective_date := some 5, created_at := 0 }

/-- A single scored assessment used by the C1 witness. -/
def wScored : Assessment :=
  { enrollment_id := some 2, subject_area := "Math", assessment_type := "MAP"
    assessment_period := "Fall", school_year := "2024-25"
    score_normalized := some 60, effective_date := some 3, created_at := 0 }

/-- An intervention whose status "Inactive" contains "active" as a
case-insensitive substring but is not one of the exact active statuses. -/
def cexInactiveIv : Intervention :=
  { intervention_id := 1, enrollment_id := some 1, status := some "Inactive" }

/-- A roster row with a non-null latest score, used by the C4 counterexample
(no matching threshold row). -/
def cexScoredRoster : RosterRow :=
  { enrollment_id := 1, student_uuid := 7, display_name := "S"
    school_year := "2024-25", grade_level := "Third", class_name := "3A"
    teacher_name := "T", subject_area := some "Reading"
    latest_score := some 50, latest_date := some 0, latest_period := some "Fall"
    latest_type := some "MAP", days_since_assessment := some 10
    has_active_intervention := false }

/-- A fully populated KPI-group row. -/
def kpiFullRow : RosterRow :=
  { enrollment_id := 2, student_uuid := 8, display_name := "R"
    school_year := "2024-25", grade_level := "Third", class_name := "3A"
    teacher_name := "T", subject_area := some "Reading"
    latest_score := some 70, latest_date := some 0, latest_period := some "Fall"
    latest_type := some "MAP", days_since_assessment := some 12
    has_active_intervention := false }

/-- A KPI-group row with no latest score and no days-since value. -/
def kpiNullRow : RosterRow :=
  { enrollment_id := 3, student_uuid := 9, display_name := "N"
    school_year := "2024-25", grade_level := "Third", class_name := "3A"
    teacher_name := "T", subject_area := none
    latest_score := none, latest_date := none, latest_period := none
    latest_type := none, days_since_assessment := none
    has_active_intervention := false }

/-- An enrollment with no assessment rows, used by the C10 witness. -/
def wEnr : Enrollment :=
  { enrollment_id := 1, student_uuid := 7, school_year := "2024-25"
    grade_level := "Third", class_name := "3A", teacher_name := "T" }

/-- The `students_core` row of `wEnr`'s student. -/
def wCore : StudentCore :=
  { student_uuid := 7, display_name := "S" }

/-! ### Claim theorems -/

/-- C2: the tiering engine evaluates its rules in strict first-match-wins
order: a NULL score gives Unknown/Unknown; else a present support threshold
with score below it gives Needs Support/Intensive; else a present benchmark
threshold with score below it gives Monitor/Strategic; else On Track/Core.
A NULL threshold is never treated as zero or always-true: in particular a
present support threshold, an absent benchmark threshold and a score at or
above the support threshold give On Track/Core. -/
theorem tiering_rule_order :
    (∀ sup bench : Option ℚ, statusTier none sup bench = ("Unknown", "Unknown")) ∧
    (∀ (s t : ℚ) (bench : Option ℚ), s < t →
      statusTier (some s) (some t) bench = ("Needs Support", "Intensive")) ∧
    (∀ s t b : ℚ, ¬s < t → s < b →
      statusTier (some s) (some t) (some b) = ("Monitor", "Strategic")) ∧
    (∀ s b : ℚ, s < b →
      statusTier (some s) none (some b) = ("Monitor", "Strategic")) ∧
    (∀ s t b : ℚ, ¬s < t → ¬s < b →
      statusTier (some s) (some t) (some b) = ("On Track", "Core")) ∧
    (∀ s t : ℚ, ¬s < t → statusTier (some s) (some t) none = ("On Track", "Core")) ∧
    (∀ s b : ℚ, ¬s < b →
      statusTier (some s) none (some b) = ("On Track", "Core")) ∧
    (∀ s : ℚ, statusTier (some s) none none = ("On Track", "Core")) := by
  refine ⟨?_, ?_, ?_, ?_, ?_, ?_, ?_, ?_⟩ <;> intros <;>
    simp_all [statusTier, support_status, tier, sqlLt] <;>
    split_ifs <;> simp_all <;> linarith

/-- Witness for C2 at concrete inputs: score 50 under support threshold 60
with no benchmark threshold is Needs Support/Intensive, score 70 there is
On Track/Core, and score 80 under only a benchmark threshold 75 is On
Track/Core. -/
theorem tiering_rule_order_witness :
    statusTier (some 50) (some 60) none = ("Needs Support", "Intensive") ∧
    statusTier (some 70) (some 60) none = ("On Track", "Core") ∧
    statusTier (some 80) none (some 75) = ("On Track", "Core") :=
  ⟨tiering_rule_order.2.1 50 60 none (by norm_num),
   tiering_rule_order.2.2.2.2.2.1 70 60 (by norm_num),
   tiering_rule_order.2.2.2.2.2.2.1 80 75 (by norm_num)⟩

/-- C8: for any fixed (possibly partially absent) threshold pair, the tier is
monotone in the score under the ordering Intensive < Strategic < Core. -/
theorem tier_monotone :
    ∀ (sup bench : Option ℚ) (s1 s2 : ℚ), s1 ≤ s2 →
      tierRank (tier (some s1) sup bench) ≤ tierRank (tier (some s2) sup bench) := by
  intro sup bench s1 s2 h
  rcases sup with _ | t <;> rcases bench with _ | b
  · simp [tier, sqlLt, tierRank]
  · by_cases h1 : s1 < b <;> by_cases h2 : s2 < b <;>
      simp [tier, sqlLt, tierRank, h1, h2] <;> linarith
  · by_cases h1 : s1 < t <;> by_cases h2 : s2 < t <;>
      simp [tier, sqlLt, tierRank, h1, h2] <;> linarith
  · by_cases h1 : s1 < t <;> by_cases h2 : s2 < t <;>
      by_cases h3 : s1 < b <;> by_cases h4 : s2 < b <;>
      simp [tier, sqlLt, tierRank, h1, h2, h3, h4] <;> linarith

/-- Witness for C8 at concrete inputs: score 40 versus score 80 under
thresholds (60, 75). -/
theorem tier_monotone_witness :
    tierRank (tier (some 40) (some 60) (some 75)) ≤
      tierRank (tier (some 80) (some 60) (some 75)) :=
  tier_monotone (some 60) (some 75) 40 80 (by norm_num)

theorem tier_arm_eq (t : String) :
    (if t = "Intensive" then (5 : Int) else if t = "Strategic" then 3 else 0) =
      specTierPoints t := by
  by_cases h1 : t = "Intensive" <;> by_cases h2 : t = "Strategic" <;>
    simp_all [specTierPoints]

theorem trend_arm_eq (tr : Option String) :
    (if sqlEqS tr "Declining" then (3 : Int) else if sqlEqS tr "Stable" then 1 else 0) =
      specTrendPoints tr := by
  rcases tr with _ | s
  · simp [sqlEqS, specTrendPoints]
  · by_cases h1 : s = "Declining" <;> by_cases h2 : s = "Stable" <;>
      simp_all [sqlEqS, specTrendPoints]

theorem days_arm_eq (d : Option Int) :
    (if sqlGtI d 90 then (2 : Int) else if sqlGtI d 60 then 1 else 0) =
      specDaysPoints d := by
  rcases d with _ | n
  · simp [sqlGtI, specDaysPoints]
  · simp only [sqlGtI, specDaysPoints, decide_eq_true_eq]
    split_ifs <;> omega

/-- C5: the priority score is the sum of the four independent additive
contributions of the scoring table (tier, trend, recency with >90 taking
precedence over >60, intervention gap), and the concrete example
tier=Intensive, trend=Declining, no intervention, days=95 scores 5+3+2+2=12. -/
theorem priority_score_additive :
    (∀ (t : String) (tr : Option String) (d : Option Int) (ai : Bool),
      priority_score t tr d ai =
        specTierPoints t + specTrendPoints tr + specDaysPoints d +
          specInterventionPoints ai t) ∧
    priority_score "Intensive" (some "Declining") (some 95) false = 12 := by
  constructor
  · intro t tr d ai
    unfold priority_score specInterventionPoints
    rw [tier_arm_eq t, trend_arm_eq tr, days_arm_eq d]
  · decide

/-- C7: the reasons column equals the fired reason strings, in the fixed
display order, joined by the separator — no leading or trailing separator and
no placeholder for conditions that did not fire. -/
theorem reasons_exactly_fired :
    ∀ (t : String) (tr : Option String) (ai : Bool) (d : Option Int),
      reasons t tr ai d = String.intercalate " | " (firedReasons t tr ai d) := by
  intro t tr ai d
  by_cases h1 : t = "Intensive" <;> by_cases h2 : t = "Strategic" <;>
    by_cases h3 : sqlEqS tr "Declining" <;> by_cases h4 : ai = false <;>
    by_cases h5 : sqlGtI d 90 <;>
    simp_all [reasons, reasonArms, firedReasons, concat_ws] <;> decide

theorem insertAsc_ne_nil (x : Int) (l : List Int) : insertAsc x l ≠ [] := by
  cases l with
  | nil => simp [insertAsc]
  | cons y ys =>
    simp only [insertAsc]
    split_ifs <;> simp

theorem sortAsc_eq_nil_iff (l : List Int) : sortAsc l = [] ↔ l = [] := by
  cases l with
  | nil => simp [sortAsc]
  | cons x xs =>
    simp only [sortAsc, List.foldr_cons]
    constructor
    · intro h
      exact absurd h (insertAsc_ne_nil x _)
    · intro h
      exact absurd h (by simp)

theorem percentileCont05_eq_none_iff (l : List Int) :
    percentileCont05 l = none ↔ l = [] := by
  rw [← sortAsc_eq_nil_iff]
  unfold percentileCont05
  cases hs : sortAsc l with
  | nil => simp
  | cons y ys =>
    simp only [hs]
    constructor
    · intro h
      split_ifs at h
    · intro h
      exact absurd h (by simp)

/-- C9: in a KPI group, every roster row counts toward the total
unconditionally; the assessed count grows exactly on rows with a non-null
latest score (a null-scored row is excluded no matter its other columns, a
scored row is counted no matter its other columns); the median aggregate's
input gains exactly the rows with a non-null days-since value (a row with a
null days-since leaves the median unchanged no matter its score, a row with a
days-since value contributes it no matter its score); and the median is NULL
exactly when no row of the group has a days-since value. -/
theorem kpi_denominator_semantics :
    ∀ (rows : List RosterRow) (r : RosterRow),
      total_students (r :: rows) = total_students rows + 1 ∧
      (r.latest_score = none →
        assessed_students (r :: rows) = assessed_students rows) ∧
      (∀ q : ℚ, r.latest_score = some q →
        assessed_students (r :: rows) = assessed_students rows + 1) ∧
      (r.days_since_assessment = none →
        median_days_since (r :: rows) = median_days_since rows) ∧
      (∀ d : Int, r.days_since_assessment = some d →
        daysValues (r :: rows) = d :: daysValues rows) ∧
      (median_days_since rows = none ↔
        ∀ x ∈ rows, x.days_since_assessment = none) := by
  intro rows r
  refine ⟨?_, ?_, ?_, ?_, ?_, ?_⟩
  · simp [total_students]
  · intro hs
    simp [assessed_students, List.filter_cons, hs]
  · intro q hs
    simp [assessed_students, List.filter_cons, hs]
  · intro hd
    simp [median_days_since, daysValues, List.filterMap_cons, hd]
  · intro d hd
    simp [daysValues, List.filterMap_cons, hd]
  · rw [median_days_since, percentileCont05_eq_none_iff, daysValues,
      List.filterMap_eq_nil_iff]

/-- Witness for C9, exercising each hypothesis at concrete rows: prepending
the unassessed row leaves the assessed count and median unchanged, while
prepending the fully-populated row (score 70, days 12) increments the
assessed count and feeds 12 into the median input. -/
theorem kpi_denominator_semantics_witness :
    assessed_students (kpiNullRow :: [kpiFullRow]) = assessed_students [kpiFullRow] ∧
    assessed_students (kpiFullRow :: [kpiNullRow]) = assessed_students [kpiNullRow] + 1 ∧
    median_days_since (kpiNullRow :: [kpiFullRow]) = median_days_since [kpiFullRow] ∧
    daysValues (kpiFullRow :: [kpiNullRow]) = 12 :: daysValues [kpiNullRow] :=
  ⟨(kpi_denominator_semantics [kpiFullRow] kpiNullRow).2.1 rfl,
   (kpi_denominator_semantics [kpiNullRow] kpiFullRow).2.2.1 70 rfl,
   (kpi_denominator_semantics [kpiFullRow] kpiNullRow).2.2.2.1 rfl,
   (kpi_denominator_semantics [kpiNullRow] kpiFullRow).2.2.2.2.1 12 rfl⟩

/-- C1 counterexample: in a group holding a later-dated NULL-scored row and an
earlier-dated scored row, the `latest` CTE does not return the maximal
non-null-scored row — it returns the NULL-scored row, and the reported current
score is NULL although a non-null score exists. -/
theorem latest_selector_counterexample :
    cexScoredPrior ∈ [cexNullLatest, cexScoredPrior] ∧
    cexScoredPrior.score_normalized = some 50 ∧
    latestSelect [cexNullLatest, cexScoredPrior] ≠ some cexScoredPrior ∧
    latestSelect [cexNullLatest, cexScoredPrior] = some cexNullLatest ∧
    cexNullLatest.score_normalized = none ∧
    latestScoreOf [cexNullLatest, cexScoredPrior] = none := by
  refine ⟨by simp, rfl, ?_, rfl, rfl, rfl⟩
  intro h
  simp only [latestSelect, List.foldl_cons, List.foldl_nil,
    Option.some.injEq] at h
  revert h
  decide

/-- C1 (amended): on every nonempty group of assessment rows for an
(enrollment, subject) pair the `latest` CTE returns exactly one row — a member
of the group that is maximal in the (`effective_date` DESC NULLS LAST,
`created_at` DESC) order over ALL rows, with no filtering on the normalized
score; the reported current score is that row's own normalized score, and when
every row's score is NULL the reported score is NULL, never zero. -/
theorem latest_selector_amended :
    ∀ rows : List Assessment, rows ≠ [] →
      ∃ r, latestSelect rows = some r ∧ r ∈ rows ∧
        (∀ b ∈ rows, keyLtB r b = false) ∧
        latestScoreOf rows = r.score_normalized ∧
        ((∀ a ∈ rows, a.score_normalized = none) → latestScoreOf rows = none) := by
  intro rows hne
  obtain ⟨r, hsel, hmem, hmax⟩ := latestSelect_spec rows hne
  refine ⟨r, hsel, hmem, hmax, ?_, ?_⟩
  · simp [latestScoreOf, hsel]
  · intro hall
    simp [latestScoreOf, hsel, hall r hmem]

/-- Witness for C1 (amended) on the two-row counterexample group. -/
theorem latest_selector_amended_witness :
    ∃ r, latestSelect [cexNullLatest, cexScoredPrior] = some r ∧
      r ∈ [cexNullLatest, cexScoredPrior] ∧
      (∀ b ∈ [cexNullLatest, cexScoredPrior], keyLtB r b = false) ∧
      latestScoreOf [cexNullLatest, cexScoredPrior] = r.score_normalized ∧
      ((∀ a ∈ [cexNullLatest, cexScoredPrior], a.score_normalized = none) →
        latestScoreOf [cexNullLatest, cexScoredPrior] = none) :=
  latest_selector_amended [cexNullLatest, cexScoredPrior] (by simp)

/-- C3 counterexample: the status "Inactive" matches "active" as a
case-insensitive substring, yet the view's exact-match filter does not count
the intervention as active. -/
theorem intervention_flag_counterexample :
    cexInactiveIv.enrollment_id = some 1 ∧
    specStatusActive cexInactiveIv.status = true ∧
    has_active_intervention 1 [cexInactiveIv] = false := by
  refine ⟨rfl, ?_, ?_⟩ <;> decide

/-- C3 (amended): the has_active_intervention flag is true iff some
intervention row of that enrollment (the subject is not consulted) has a NULL
status or a status whose trimmed, lowercased value is exactly "active",
"in progress" or "ongoing". -/
theorem intervention_flag_amended :
    ∀ (eid : Nat) (ivs : List Intervention),
      has_active_intervention eid ivs = true ↔
        ∃ iv ∈ ivs, iv.enrollment_id = some eid ∧
          (iv.status = none ∨ ∃ st, iv.status = some st ∧
            (sqlLower (sqlTrim st) = "active" ∨ sqlLower (sqlTrim st) = "in progress" ∨
              sqlLower (sqlTrim st) = "ongoing")) := by
  intro eid ivs
  simp only [has_active_intervention, List.any_eq_true, Bool.and_eq_true,
    beq_iff_eq]
  constructor
  · rintro ⟨iv, hmem, heid, hst⟩
    refine ⟨iv, hmem, heid, ?_⟩
    rcases hiv : iv.status with _ | st
    · exact Or.inl rfl
    · rw [hiv] at hst
      simp only [statusActiveB, Bool.or_eq_true, decide_eq_true_eq] at hst
      exact Or.inr ⟨st, rfl, by tauto⟩
  · rintro ⟨iv, hmem, heid, hst⟩
    refine ⟨iv, hmem, heid, ?_⟩
    rcases hst with hnone | ⟨st, hsome, hval⟩
    · rw [hnone]; rfl
    · rw [hsome]
      simp only [statusActiveB, Bool.or_eq_true, decide_eq_true_eq]
      tauto

/-- C4 counterexample: a roster row with a non-null latest score but no
matching threshold row is tiered Core, not Unknown. -/
theorem missing_threshold_counterexample :
    (supportRowsFor cexScoredRoster []).map SupportRow.tier = ["Core"] ∧
    ("Core" : String) ≠ "Unknown" := by
  constructor
  · rfl
  · decide

/-- C4 (amended): when no threshold row matches, the `LEFT JOIN` extends the
roster row with NULL thresholds and the tier is Unknown exactly when the
latest score is NULL and Core otherwise; a roster row always yields at least
one support row, and with no reference data at all the cohort computation
still produces exactly one support row per roster row. -/
theorem missing_threshold_amended :
    (∀ (r : RosterRow) (ts : List Threshold), ts.filter (thresholdMatch r) = [] →
      supportRowsFor r ts = [mkSupportRow r none none]) ∧
    (∀ r : RosterRow, (mkSupportRow r none none).tier =
      if r.latest_score.isNone then "Unknown" else "Core") ∧
    (∀ (r : RosterRow) (ts : List Threshold), supportRowsFor r ts ≠ []) ∧
    (∀ (today : Int) (enrs : List Enrollment) (cores : List StudentCore)
        (asmts : List Assessment) (ivs : List Intervention),
      (v_support_status today enrs cores asmts ivs []).length =
        (v_teacher_roster today enrs cores asmts ivs).length) := by
  refine ⟨?_, ?_, ?_, ?_⟩
  · intro r ts h
    simp [supportRowsFor, h]
  · intro r
    rcases hs : r.latest_score with _ | q <;>
      simp [mkSupportRow, tier, hs, sqlLt]
  · intro r ts
    simp only [supportRowsFor]
    by_cases h : (ts.filter (thresholdMatch r)).isEmpty
    · simp [h]
    · simp only [h, Bool.false_eq_true, if_false, ne_eq, List.map_eq_nil_iff]
      intro hc
      rw [hc] at h
      simp at h
  · intro today enrs cores asmts ivs
    unfold v_support_status
    generalize v_teacher_roster today enrs cores asmts ivs = rows
    induction rows with
    | nil => rfl
    | cons r rs ih =>
      have h1 : supportRowsFor r [] = [mkSupportRow r none none] := rfl
      rw [List.flatMap_cons, h1, List.length_append, ih]
      simp [Nat.add_comm]

/-- Witness for C4 (amended) at a concrete scored roster row with an empty
threshold table. -/
theorem missing_threshold_amended_witness :
    supportRowsFor cexScoredRoster [] = [mkSupportRow cexScoredRoster none none] :=
  missing_threshold_amended.1 cexScoredRoster [] rfl

/-- C6 counterexample: the claim's boundary example trend(prior=70,
latest=72.5) = "Stable" is false — the growth is 2.5 ≥ +2, so the view
classifies it Improving. -/
theorem growth_trend_counterexample :
    trendOf (some (72.5 : ℚ)) (some 70) = "Improving" ∧
    trendOf (some (72.5 : ℚ)) (some 70) ≠ "Stable" := by
  have h : trendOf (some (72.5 : ℚ)) (some 70) = "Improving" := by
    have hge : sqlGe (sqlSub (some (72.5 : ℚ)) (some 70)) (some 2) = true := by
      simp only [sqlGe, sqlSub, decide_eq_true_eq, ge_iff_le]
      norm_num
    simp [trendOf, hge]
  refine ⟨h, ?_⟩
  rw [h]
  decide

/-- C6 (amended): the growth view takes the two most recent non-null-scored
rows (by effective date descending with insertion-time tie-break): the latest
is a key-maximal member of the group and the prior is drawn from the rest;
classification: no prior → "No Data", growth ≥ +2 → "Improving", growth ≤ −2 →
"Declining", otherwise "Stable"; boundary examples: (70, 73) → Improving,
(70, 72.5) → Improving, (70, 72) → Improving, (70, 67.9) → Declining. -/
theorem growth_trend_amended :
    (∀ latest : Option ℚ, trendOf latest none = "No Data") ∧
    (∀ l p : ℚ, 2 ≤ l - p → trendOf (some l) (some p) = "Improving") ∧
    (∀ l p : ℚ, l - p ≤ -2 → trendOf (some l) (some p) = "Declining") ∧
    (∀ l p : ℚ, -2 < l - p → l - p < 2 → trendOf (some l) (some p) = "Stable") ∧
    trendOf (some 73) (some 70) = "Improving" ∧
    trendOf (some (72.5 : ℚ)) (some 70) = "Improving" ∧
    trendOf (some 72) (some 70) = "Improving" ∧
    trendOf (some (67.9 : ℚ)) (some 70) = "Declining" ∧
    (∀ rows : List Assessment, rows ≠ [] →
      ∃ r, latestSelect rows = some r ∧ r ∈ rows ∧
        (∀ b ∈ rows, keyLtB r b = false) ∧
        growthPairOf rows =
          some (r.score_normalized, latestScoreOf (rows.erase r))) := by
  have himp : ∀ l p : ℚ, 2 ≤ l - p → trendOf (some l) (some p) = "Improving" := by
    intro l p h
    have hge : sqlGe (sqlSub (some l) (some p)) (some 2) = true := by
      simp only [sqlGe, sqlSub, decide_eq_true_eq, ge_iff_le]
      exact h
    simp [trendOf, hge]
  have hdec : ∀ l p : ℚ, l - p ≤ -2 → trendOf (some l) (some p) = "Declining" := by
    intro l p h
    have hge : sqlGe (sqlSub (some l) (some p)) (some 2) = false := by
      simp only [sqlGe, sqlSub, decide_eq_false_iff_not, ge_iff_le, not_le]
      linarith
    have hle : sqlLe (sqlSub (some l) (some p)) (some (-2)) = true := by
      simp only [sqlLe, sqlSub, decide_eq_true_eq]
      exact h
    simp [trendOf, hge, hle]
  refine ⟨?_, himp, hdec, ?_, ?_, ?_, ?_, ?_, ?_⟩
  · intro latest
    simp [trendOf]
  · intro l p h1 h2
    have hge : sqlGe (sqlSub (some l) (some p)) (some 2) = false := by
      simp only [sqlGe, sqlSub, decide_eq_false_iff_not, ge_iff_le, not_le]
      linarith
    have hle : sqlLe (sqlSub (some l) (some p)) (some (-2)) = false := by
      simp only [sqlLe, sqlSub, decide_eq_false_iff_not, not_le]
      linarith
    simp [trendOf, hge, hle]
  · exact himp 73 70 (by norm_num)
  · exact himp (72.5 : ℚ) 70 (by norm_num)
  · exact himp 72 70 (by norm_num)
  · exact hdec (67.9 : ℚ) 70 (by norm_num)
  · intro rows hne
    obtain ⟨r, hsel, hmem, hmax⟩ := latestSelect_spec rows hne
    refine ⟨r, hsel, hmem, hmax, ?_⟩
    simp [growthPairOf, hsel, latestScoreOf]

/-- Witness for C6 (amended): the classification at growth +3 and the pair
selection on a concrete two-row group. -/
theorem growth_trend_amended_witness :
    trendOf (some 73) (some 70) = "Improving" ∧
    (∃ r, latestSelect [cexNullLatest, cexScoredPrior] = some r ∧
      r ∈ [cexNullLatest, cexScoredPrior] ∧
      (∀ b ∈ [cexNullLatest, cexScoredPrior], keyLtB r b = false) ∧
      growthPairOf [cexNullLatest, cexScoredPrior] =
        some (r.score_normalized,
          latestScoreOf (([cexNullLatest, cexScoredPrior]).erase r))) :=
  ⟨growth_trend_amended.2.1 73 70 (by norm_num),
   growth_trend_amended.2.2.2.2.2.2.2.2 [cexNullLatest, cexScoredPrior] (by simp)⟩

theorem priority_score_unknown_zero :
    ∀ b : Bool, priority_score "Unknown" none none b = 0 := by decide

theorem reasons_unknown_empty :
    ∀ b : Bool, reasons "Unknown" none b none = "" := by decide

/-- C10: an enrollment with no assessment rows at all is never dropped — it
appears in the support-status and priority views with support_status and tier
Unknown, NULL latest score and days-since, priority score 0 and an empty
reasons string. -/
theorem enrollment_without_assessments_retained :
    ∀ (today : Int) (enrs : List Enrollment) (cores : List StudentCore)
      (asmts : List Assessment) (ivs : List Intervention) (ts : List Threshold)
      (e : Enrollment) (s : StudentCore),
      e ∈ enrs → s ∈ cores → s.student_uuid = e.student_uuid →
      (∀ a ∈ asmts, a.enrollment_id ≠ some e.enrollment_id) →
      (∃ ss ∈ v_support_status today enrs cores asmts ivs ts,
          ss.row.enrollment_id = e.enrollment_id ∧
          ss.support_status = "Unknown" ∧ ss.tier = "Unknown" ∧
          ss.row.latest_score = none ∧ ss.row.days_since_assessment = none) ∧
      (∃ pr ∈ v_priority_students today enrs cores asmts ivs ts,
          pr.base.row.enrollment_id = e.enrollment_id ∧
          pr.base.support_status = "Unknown" ∧ pr.base.tier = "Unknown" ∧
          pr.base.row.latest_score = none ∧
          pr.base.row.days_since_assessment = none ∧
          pr.priority_score = 0 ∧ pr.reasons = "") := by
  intro today enrs cores asmts ivs ts e s he hs huuid hnoa
  have hfil : asmts.filter (fun a => a.enrollment_id == some e.enrollment_id) = [] := by
    rw [List.filter_eq_nil_iff]
    intro a ha
    simp [hnoa a ha]
  have hsub : subjectsOf e.enrollment_id asmts = [] := by
    simp [subjectsOf, hfil]
  have hros : rosterRowsFor today asmts ivs s e =
      [nullRosterRow s e (has_active_intervention e.enrollment_id ivs)] := by
    simp [rosterRowsFor, hsub]
  have hmem_roster :
      nullRosterRow s e (has_active_intervention e.enrollment_id ivs) ∈
        v_teacher_roster today enrs cores asmts ivs := by
    unfold v_teacher_roster
    rw [List.mem_flatMap]
    refine ⟨e, he, ?_⟩
    rw [List.mem_flatMap]
    refine ⟨s, ?_, ?_⟩
    · rw [List.mem_filter]
      exact ⟨hs, by simp [huuid]⟩
    · rw [hros]
      simp
  have hsupp : supportRowsFor
      (nullRosterRow s e (has_active_intervention e.enrollment_id ivs)) ts =
      [mkSupportRow (nullRosterRow s e (has_active_intervention e.enrollment_id ivs))
        none none] := by
    have hflt : ts.filter
        (thresholdMatch (nullRosterRow s e (has_active_intervention e.enrollment_id ivs))) =
        [] := by
      rw [List.filter_eq_nil_iff]
      intro t ht
      simp [thresholdMatch, nullRosterRow]
    simp [supportRowsFor, hflt]
  have hmem_ss : mkSupportRow
      (nullRosterRow s e (has_active_intervention e.enrollment_id ivs)) none none ∈
      v_support_status today enrs cores asmts ivs ts := by
    unfold v_support_status
    rw [List.mem_flatMap]
    refine ⟨nullRosterRow s e (has_active_intervention e.enrollment_id ivs),
      hmem_roster, ?_⟩
    rw [hsupp]
    simp
  constructor
  · exact ⟨mkSupportRow
      (nullRosterRow s e (has_active_intervention e.enrollment_id ivs)) none none,
      hmem_ss, rfl, rfl, rfl, rfl, rfl⟩
  · refine ⟨priorityRowFor (mkSupportRow
        (nullRosterRow s e (has_active_intervention e.enrollment_id ivs)) none none)
        asmts, ?_, rfl, rfl, rfl, rfl, rfl, ?_, ?_⟩
    · unfold v_priority_students
      rw [List.mem_map]
      exact ⟨_, hmem_ss, rfl⟩
    · exact priority_score_unknown_zero (has_active_intervention e.enrollment_id ivs)
    · exact reasons_unknown_empty (has_active_intervention e.enrollment_id ivs)

/-- Witness for C10: a one-enrollment database with no assessments at all. -/
theorem enrollment_without_assessments_retained_witness :
    (∃ ss ∈ v_support_status 0 [wEnr] [wCore] [] [] [],
        ss.row.enrollment_id = wEnr.enrollment_id ∧
        ss.support_status = "Unknown" ∧ ss.tier = "Unknown" ∧
        ss.row.latest_score = none ∧ ss.row.days_since_assessment = none) ∧
    (∃ pr ∈ v_priority_students 0 [wEnr] [wCore] [] [] [],
        pr.base.row.enrollment_id = wEnr.enrollment_id ∧
        pr.base.support_status = "Unknown" ∧ pr.base.tier = "Unknown" ∧
        pr.base.row.latest_score = none ∧
        pr.base.row.days_since_assessment = none ∧
        pr.priority_score = 0 ∧ pr.reasons = "") :=
  enrollment_without_assessments_retained 0 [wEnr] [wCore] [] [] [] wEnr wCore
    (by simp) (by simp) rfl (by simp)

end J9
